import Mathlib

/-!
Verification of the chunker, client and upload logic of the arkavo client-web
repository. Byte contents are modelled as `List Nat`; JavaScript `undefined`
arguments as `Option`; thrown exceptions as explicit error results.
-/

/-- Byte content of a source, one `Nat` per byte. -/
abbrev Bytes := List Nat

/-- Outcome of a local read: the bytes, or a thrown error (message text). -/
inductive ReadResult where
  | ok (data : Bytes)
  | err (msg : String)
deriving DecidableEq

/-- ECMAScript relative-index clamping used by `TypedArray.prototype.slice`:
a negative index counts from the end (clamped below at 0), a non-negative
index is clamped above at the length. -/
def jsClampIndex (len : Nat) (i : Int) : Nat :=
  if i < 0 then ((len : Int) + i).toNat else min i.toNat len

/-- The chunker returned by `fromBuffer` (chunkers.ts:34-38): a read is
`buffer.slice(byteStart, byteEnd)`, with absent bounds defaulting to the
start and end of the content. -/
def fromBuffer (S : Bytes) (byteStart byteEnd : Option Int) : Bytes :=
  let s := (byteStart.map (jsClampIndex S.length)).getD 0
  let e := (byteEnd.map (jsClampIndex S.length)).getD S.length
  (S.drop s).take (e - s)

/-- Node `fs.createReadStream(path, \x7bstart, end\x7d)` over content `S`: both
bounds are inclusive; a negative bound, or `start > end`, throws
`ERR_OUT_OF_RANGE`; an absent end reads to the end of the file; reading is
clamped at the end of the file. -/
def createReadStream (S : Bytes) (start : Int) (endv : Option Int) : ReadResult :=
  if start < 0 then .err "ERR_OUT_OF_RANGE"
  else
    match endv with
    | none => .ok (S.drop start.toNat)
    | some e =>
      if e < 0 then .err "ERR_OUT_OF_RANGE"
      else if start > e then .err "ERR_OUT_OF_RANGE"
      else .ok ((S.drop start.toNat).take (e.toNat + 1 - start.toNat))

/-- The chunker returned by `fromNodeFile` (chunkers.ts:40-85) over a file
with content `S`. Faithful to the source: `start = byteStart || 0`; the
fast path `if (!start && !end)` reads the whole file whenever both bounds
are JavaScript-falsy (absent or `0`); a negative start becomes
`max(0, fileSize - |start|)`; a truthy `byteEnd` is converted to the
inclusive bound `byteEnd - 1` (negative: `fileSize + byteEnd - 1`); the
read itself is `createReadStream`. -/
def fromNodeFile (S : Bytes) (byteStart byteEnd : Option Int) : ReadResult :=
  let start0 : Int := byteStart.getD 0
  let endFalsy : Bool := match byteEnd with
    | none => true
    | some b => b == 0
  if start0 == 0 && endFalsy then .ok S
  else
    let start : Int := if start0 < 0 then max 0 ((S.length : Int) - |start0|) else start0
    let endv : Option Int := match byteEnd with
      | none => none
      | some b => if b == 0 then some 0
        else if b < 0 then some ((S.length : Int) + b - 1)
        else some (b - 1)
    createReadStream S start endv

/-- Outcome of one remote-chunker read (chunkers.ts:111-125): either a GET is
issued, carrying the `Range` bounds when a header was built (start of the
range and, when bounded, the inclusive end), or an error is thrown with no
request issued. -/
inductive RemoteRead where
  | get (range : Option (Int × Option Int))
  | thrown (msg : String)
deriving DecidableEq

/-- Whether a remote read failed (threw) rather than issuing a request. -/
def RemoteRead.failed : RemoteRead → Bool
  | .get _ => false
  | .thrown _ => true

/-- The chunker returned by `fromUrl` (chunkers.ts:111-125): an absent
`byteStart` fetches the whole content (ignoring `byteEnd`); a truthy negative
`byteEnd` throws `negative end unsupported` before any request; a truthy
positive `byteEnd` produces the inclusive range `byteStart-(byteEnd-1)`;
otherwise the open range `byteStart-`. -/
def fromUrl (byteStart byteEnd : Option Int) : RemoteRead :=
  match byteStart with
  | none => .get none
  | some a =>
    match byteEnd with
    | none => .get (some (a, none))
    | some b =>
      if b ≠ 0 ∧ b < 0 then .thrown "negative end unsupported"
      else if b ≠ 0 then .get (some (a, some (b - 1)))
      else .get (some (a, none))

/-- The method surface of a value passed as a `stream` data source. The class
`DecoratedReadableStream` (DecoratedReadableStream.ts:17-104) defines
`toString` and `toFile` and no `toBuffer` method. -/
structure DRSMethods where
  hasToString : Bool
  hasToFile : Bool
  hasToBuffer : Bool
deriving DecidableEq

/-- The methods the class body of `DecoratedReadableStream` defines:
`toString` (line 46) and `toFile` (line 56); no `toBuffer`. -/
def decoratedReadableStreamMethods : DRSMethods :=
  { hasToString := true, hasToFile := true, hasToBuffer := false }

/-- `isDecoratedReadableStream` (DecoratedReadableStream.ts:106-111): checks
that `toFile` and `toString` are defined. -/
def isDecoratedReadableStream (m : DRSMethods) : Bool :=
  m.hasToFile && m.hasToString

/-- Outcome of the `stream` branch of `fromDataSource`: a chunker over the
materialized bytes, or a thrown error. -/
inductive StreamSourceResult where
  | chunker (read : Option Int → Option Int → Bytes)
  | thrown (msg : String)

/-- The `stream` branch of `fromDataSource` (chunkers.ts:162-166) on a value
with method surface `m` whose streamed content is `content`: after the
`isDecoratedReadableStream` guard it evaluates
`fromBuffer(await location.toBuffer())`, so when the value has no `toBuffer`
method the call throws a `TypeError` instead of producing a chunker. -/
def fromDataSourceStream (m : DRSMethods) (content : Bytes) : StreamSourceResult :=
  if !isDecoratedReadableStream m then
    .thrown "Invalid data source; must be DecoratedTdfStream"
  else if m.hasToBuffer then
    .chunker (fromBuffer content)
  else
    .thrown "TypeError: location.toBuffer is not a function"

/-- `Upload.MAX_PARTS` (the S3 upload helper, line 59). -/
def MAX_PARTS : Nat := 10000

/-- Outcome of the upload loop: how many parts sit in `uploadedParts` when the
loop ends normally, or when it throws the exceeded-parts error. -/
inductive UploadResult where
  | ok (committed : Nat)
  | err (committed : Nat)
deriving DecidableEq

/-- The part-count behaviour of a sequential `__doConcurrentUpload` pass (the
upload helper, lines 173-242) over `remaining` multipart data parts with
`committed` parts already pushed to `uploadedParts`: each iteration first
throws when the already-committed count exceeds `MAX_PARTS`
(`uploadedParts.length > this.MAX_PARTS`), and otherwise uploads the part and
pushes its result. -/
def uploadPartsLoop : Nat → Nat → UploadResult
  | 0, committed => .ok committed
  | remaining + 1, committed =>
    if committed > MAX_PARTS then .err committed
    else uploadPartsLoop remaining (committed + 1)

/-- The abort controller signal: the instant `abort()` was called, if ever. -/
structure AbortSignalModel where
  abortTime : Option Nat
deriving DecidableEq

/-- Whether `signal.aborted` reads `true` at instant `t`: the signal is
aborted from `abortTime` on and never resets. -/
def abortedAt (s : AbortSignalModel) (t : Nat) : Bool :=
  match s.abortTime with
  | none => false
  | some a => a ≤ t

/-- What one `__doConcurrentUpload` iteration did with one multipart data
part: whether an `UploadPartCommand` was sent, whether its result was pushed
to `uploadedParts`, and whether the iteration returned early, ending the
loop. -/
structure IterOutcome where
  sent : Bool
  committed : Bool
  exited : Bool
deriving DecidableEq

/-- One iteration of `__doConcurrentUpload` (lines 183-229) for a multipart
data part, with the signal read at instants `t1` (loop top), `t2` (after
`__createMultipartUpload`, only reached when no `uploadId` exists yet) and
`t3` (after the `UploadPartCommand` resolves): an abort observed at the loop
top returns before any send; an abort observed after the send returns before
the result is pushed; otherwise the result is pushed to `uploadedParts`. -/
def iterationOutcome (s : AbortSignalModel) (hasUploadId : Bool)
    (t1 t2 t3 : Nat) : IterOutcome :=
  if abortedAt s t1 then ⟨false, false, true⟩
  else if !hasUploadId && abortedAt s t2 then ⟨false, false, true⟩
  else if abortedAt s t3 then ⟨true, false, true⟩
  else ⟨true, true, false⟩

/-- A sequential `__doConcurrentUpload` pass under a signal `s`: each list
element gives one data part and the instants of its three signal reads. An
iteration that returned early ends the loop: no later data part is taken from
the feeder. An iteration that committed had created the multipart upload, so
later iterations see `uploadId` set. -/
def uploadAbortLoop (s : AbortSignalModel) (hasUploadId : Bool) :
    List (Nat × Nat × Nat) → List IterOutcome
  | [] => []
  | (t1, t2, t3) :: rest =>
    let r := iterationOutcome s hasUploadId t1 t2 t3
    if r.exited then [r]
    else r :: uploadAbortLoop s true rest

/-- Outcome of `Upload.done()`. -/
inductive DoneResult where
  | ok (value : Nat)
  | err (name : String)
deriving DecidableEq

/-- `Upload.done()` (lines 114-121, 244-290): the race of
`__doMultipartUpload` with `__abortTimeout`. When the signal has aborted by
instant `t`, at which the concurrent uploaders have all settled, the race
produces the error named `AbortError`: `__abortTimeout` rejects with it on
abort, and `__doMultipartUpload` itself throws it right after
`Promise.all(concurrentUploaders)` when the signal is aborted
(lines 256-258). -/
def doneResult (s : AbortSignalModel) (t : Nat) (completeValue : Nat) : DoneResult :=
  if abortedAt s t then .err "AbortError" else .ok completeValue

/-- Outcome of the `Client` constructor kasEndpoint resolution: the resolved
endpoint, or a thrown error. JavaScript strings are `List Char`. -/
inductive CtorResult where
  | ok (kasEndpoint : List Char)
  | thrown (msg : String)
deriving DecidableEq

/-- JavaScript truthiness of an optional string config field: absent and the
empty string are falsy. -/
def truthyStr (o : Option (List Char)) : Bool :=
  match o with
  | none => false
  | some s => !s.isEmpty

/-- `keyRewrapEndpoint.replace(/\/rewrap$/, '')` (client index.ts:179): when
the string ends in `/rewrap` (7 characters) that suffix is removed, otherwise
the string is unchanged. -/
def replaceRewrapSuffix (s : List Char) : List Char :=
  if "/rewrap".toList <:+ s then s.take (s.length - 7) else s

/-- The kasEndpoint resolution of the `Client` constructor (client
index.ts:172-180): a truthy `kasEndpoint` is taken as is; otherwise a falsy
`keyRewrapEndpoint` throws `KAS definition not found`, and a truthy one is
used with a trailing `/rewrap` removed. -/
def clientKasEndpoint (kasEndpoint keyRewrapEndpoint : Option (List Char)) : CtorResult :=
  if truthyStr kasEndpoint then .ok (kasEndpoint.getD [])
  else if !truthyStr keyRewrapEndpoint then .thrown "KAS definition not found"
  else .ok (replaceRewrapSuffix (keyRewrapEndpoint.getD []))

/-- External effects the `Client` constructor starts after the kasEndpoint
resolution: creating session keys (index.ts:225-229, unless a keypair was
configured) and fetching the KAS public key (index.ts:234, unless one was
configured). -/
inductive CtorEffect where
  | createSessionKeys
  | fetchKasPublicKey
deriving DecidableEq

/-- The `Client` constructor (index.ts:166-236), reduced to the kasEndpoint
resolution and the external effects it starts: on a thrown resolution no
effect has started. -/
def clientConstruct (kasEndpoint keyRewrapEndpoint : Option (List Char))
    (hasKeypair hasKasPublicKey : Bool) : List CtorEffect × CtorResult :=
  match clientKasEndpoint kasEndpoint keyRewrapEndpoint with
  | .thrown e => ([], .thrown e)
  | .ok k =>
    ((if hasKeypair then [] else [CtorEffect.createSessionKeys]) ++
      (if hasKasPublicKey then [] else [CtorEffect.fetchKasPublicKey]),
      .ok k)

/-- `GLOBAL_BYTE_LIMIT` (client index.ts:30): `64 * 1000 * 1000 * 1000`. -/
def GLOBAL_BYTE_LIMIT : Nat := 64 * 1000 * 1000 * 1000

/-- `HTML_BYTE_LIMIT` (client index.ts:31): `100 * 1000 * 1000`. -/
def HTML_BYTE_LIMIT : Nat := 100 * 1000 * 1000

/-- One key-access entry as handed to `tdf.addKeyAccess`
(client index.ts:321-326). -/
structure KeyAccessAdd where
  type : String
  url : String
  publicKey : String
deriving DecidableEq

/-- The observable steps of a `Client.encrypt` call, in code order. -/
inductive EncEvent where
  | awaitSessionKeys
  | awaitKasPublicKey
  | createPolicy
  | addKeyAccess (ka : KeyAccessAdd)
  | writeStream (byteLimit : Nat)
deriving DecidableEq

/-- The key-access entries among a list of encrypt events. -/
def keyAccessAdds (events : List EncEvent) : List KeyAccessAdd :=
  events.filterMap fun e =>
    match e with
    | .addKeyAccess ka => some ka
    | _ => none

/-- Outcome of a `Client.encrypt` call. -/
inductive EncResult where
  | ok
  | err (msg : String)
deriving DecidableEq

/-- The fields of a `Client` instance that `encrypt` reads: the `readerUrl`
(set only when configured truthy, index.ts:170), the `kasEndpoint` and the
cached KAS public key. -/
structure ClientModel where
  kasEndpoint : List Char
  kasPublicKey : String
  readerUrl : Option String
deriving DecidableEq

/-- The arguments of one `Client.encrypt` call that decide its control flow:
`asHtml` (default `false`), `offline` (default `false`), whether an
`rcaSource` was supplied, and the total plaintext size of the source. -/
structure EncryptCall where
  asHtml : Bool
  offline : Bool
  rcaSource : Bool
  sourceSize : Nat
deriving DecidableEq

/-- Modelled from the spec: `TDF.writeStream` lives in `tdf.js`, which is not
among the repository files here; per the spec \x22the writer fails if the
plaintext size exceeds the configured byte limit\x22. -/
def writeStreamModel (byteLimit : Nat) (sourceSize : Nat) : EncResult :=
  if sourceSize > byteLimit then .err "Byte limit exceeded" else .ok

/-- `Client.encrypt` (client index.ts:276-340): the three pre-checks in code
order, each throwing before any further step; then, in order, the session
keys and the KAS public key are awaited, the policy object is built, exactly
one `tdf.addKeyAccess` call adds a key-access entry whose type is `wrapped`
when `offline` and `remote` otherwise with the kasEndpoint url and the cached
KAS public key (index.ts:321-326), and `tdf.writeStream` runs with
`byteLimit = asHtml ? HTML_BYTE_LIMIT : GLOBAL_BYTE_LIMIT` (index.ts:328-334,
the write step modelled from the spec by `writeStreamModel`). -/
def encryptModel (c : ClientModel) (p : EncryptCall) : List EncEvent × EncResult :=
  if p.asHtml && p.rcaSource then
    ([], .err "rca links should be used only with zip format")
  else if p.asHtml && c.readerUrl.isNone then
    ([], .err "html container missing required parameter: [readerUrl]")
  else if p.rcaSource && c.kasEndpoint.isEmpty then
    ([], .err "rca links require a kasEndpoint url to be set")
  else
    let byteLimit := if p.asHtml then HTML_BYTE_LIMIT else GLOBAL_BYTE_LIMIT
    ([EncEvent.awaitSessionKeys, EncEvent.awaitKasPublicKey, EncEvent.createPolicy,
      EncEvent.addKeyAccess
        { type := if p.offline then "wrapped" else "remote"
          url := String.mk c.kasEndpoint
          publicKey := c.kasPublicKey },
      EncEvent.writeStream byteLimit],
      writeStreamModel byteLimit p.sourceSize)

/-- Helper: below the throwing threshold the upload loop commits every
remaining part and ends normally. -/
theorem uploadPartsLoop_ok (n c : Nat) (h : c + n ≤ MAX_PARTS + 1) :
    uploadPartsLoop n c = .ok (c + n) := by
  induction n generalizing c with
  | zero => simp [uploadPartsLoop]
  | succ m ih =>
    simp only [uploadPartsLoop]
    rw [if_neg (by omega), ih (c + 1) (by omega)]
    congr 1
    omega

/-- Helper: past the throwing threshold the upload loop throws with exactly
`MAX_PARTS + 1` parts committed. -/
theorem uploadPartsLoop_throws (n c : Nat) (h1 : c ≤ MAX_PARTS + 1)
    (h2 : MAX_PARTS + 1 < c + n) :
    uploadPartsLoop n c = .err (MAX_PARTS + 1) := by
  induction n generalizing c with
  | zero => omega
  | succ m ih =>
    simp only [uploadPartsLoop]
    by_cases hc : c > MAX_PARTS
    · rw [if_pos hc]
      congr 1
      omega
    · rw [if_neg hc]
      exact ih (c + 1) (by omega) (by omega)

/-- Helper: the numeric value of `HTML_BYTE_LIMIT` is 100 MB. -/
theorem HTML_BYTE_LIMIT_eq : HTML_BYTE_LIMIT = 100 * 10 ^ 6 := by
  norm_num [HTML_BYTE_LIMIT]

/-- Helper: the numeric value of `GLOBAL_BYTE_LIMIT` is 64 GB. -/
theorem GLOBAL_BYTE_LIMIT_eq : GLOBAL_BYTE_LIMIT = 64 * 10 ^ 9 := by
  norm_num [GLOBAL_BYTE_LIMIT]

/-- C1: the buffer and local-file chunkers disagree on empty ranges. Over the
one-byte content `[1]`, `read(0, 0)` returns the whole file from the
local-file chunker (the falsy-bounds fast path of chunkers.ts:47) but the
empty slice `S[0:0]` from the buffer chunker, and `read(1, 1)` throws
`ERR_OUT_OF_RANGE` from the local-file chunker (inclusive end `0` below
start `1`) but returns the empty slice from the buffer chunker; on a
non-empty range such as `read(0, 1)` the two agree. -/
theorem c1_empty_range_divergence :
    fromNodeFile [1] (some 0) (some 0) = ReadResult.ok [1] ∧
    fromBuffer [1] (some 0) (some 0) = [] ∧
    fromNodeFile [1] (some 1) (some 1) = ReadResult.err "ERR_OUT_OF_RANGE" ∧
    fromBuffer [1] (some 1) (some 1) = [] ∧
    fromNodeFile [1] (some 0) (some 1) = ReadResult.ok [1] ∧
    fromBuffer [1] (some 0) (some 1) = [1] := by
  decide

/-- C2: the part-count guard of `__doConcurrentUpload` runs only at the top of
an iteration and only against the parts already pushed, so an upload needing
10001 parts commits all 10001 of them (exceeding `MAX_PARTS = 10000`) and
completes without error, and an upload needing 10002 parts still has 10001
parts committed when the loop finally throws. -/
theorem c2_parts_limit_exceeded :
    uploadPartsLoop (MAX_PARTS + 1) 0 = UploadResult.ok (MAX_PARTS + 1) ∧
    uploadPartsLoop (MAX_PARTS + 2) 0 = UploadResult.err (MAX_PARTS + 1) ∧
    MAX_PARTS < MAX_PARTS + 1 := by
  refine ⟨?_, ?_, by omega⟩
  · have h := uploadPartsLoop_ok (MAX_PARTS + 1) 0 (by omega)
    simpa using h
  · exact uploadPartsLoop_throws (MAX_PARTS + 2) 0 (by omega) (by omega)

/-- C5 counterexample: a remote read with absent `byteStart` and negative
`byteEnd = -1` issues a full-content GET and does not fail, so not every
remote read call given a negative byte_end fails with a typed error. -/
theorem c5_negative_end_counterexample :
    fromUrl none (some (-1)) = RemoteRead.get none ∧
    (fromUrl none (some (-1))).failed = false := by
  decide

/-- C5 (amended): every remote read call with `byteStart` present and a
negative `byteEnd` throws `negative end unsupported` and issues no request;
when `byteStart` is absent the negative `byteEnd` is ignored and a
full-content GET is issued instead. -/
theorem c5_negative_end_behaviour (a b : Int) (hb : b < 0) :
    fromUrl (some a) (some b) = RemoteRead.thrown "negative end unsupported" ∧
    (fromUrl (some a) (some b)).failed = true ∧
    fromUrl none (some b) = RemoteRead.get none := by
  have hne : b ≠ 0 := by omega
  simp [fromUrl, RemoteRead.failed, hne, hb]

/-- C5 witness: the amended statement at `byteStart = 0`, `byteEnd = -1`. -/
theorem c5_negative_end_witness :
    fromUrl (some 0) (some (-1)) = RemoteRead.thrown "negative end unsupported" ∧
    (fromUrl (some 0) (some (-1))).failed = true ∧
    fromUrl none (some (-1)) = RemoteRead.get none :=
  c5_negative_end_behaviour 0 (-1) (by decide)

/-- C6: a read with negative `byteStart = -k` (0 < k) and absent `byteEnd`
returns the suffix starting at `max(0, size - k)` from the buffer chunker and
from the local-file chunker alike (`S.length - k` is that index by truncated
subtraction). -/
theorem c6_negative_start_suffix (S : Bytes) (k : Nat) (hk : 0 < k) :
    fromBuffer S (some (-(k : Int))) none = S.drop (S.length - k) ∧
    fromNodeFile S (some (-(k : Int))) none = ReadResult.ok (S.drop (S.length - k)) := by
  have habs : |(-(k : Int))| = k := by rw [abs_neg, Int.abs_natCast]
  have hneg : (-(k : Int)) < 0 := by omega
  have hne : (-(k : Int)) ≠ 0 := by omega
  constructor
  · have hs : jsClampIndex S.length (-(k : Int)) = S.length - k := by
      simp only [jsClampIndex, if_pos hneg]
      omega
    simp only [fromBuffer, Option.map_some', Option.getD_some, Option.map_none',
      Option.getD_none, hs]
    rw [List.take_of_length_le (by simp)]
  · simp only [fromNodeFile, Option.getD_some, beq_iff_eq, if_neg hne, Bool.false_and,
      Bool.and_true, if_pos hneg, habs]
    simp only [createReadStream,
      if_neg (by omega : ¬ (0 ⊔ ((S.length : Int) - (k : Int))) < 0)]
    congr 2
    omega

/-- C6 witness: content `[5, 6]` with `k = 1` returns the one-byte suffix. -/
theorem c6_negative_start_witness :
    fromBuffer [5, 6] (some (-(1 : Int))) none = List.drop ([5, 6].length - 1) [5, 6] ∧
    fromNodeFile [5, 6] (some (-(1 : Int))) none =
      ReadResult.ok (List.drop ([5, 6].length - 1) [5, 6]) := by
  simpa using c6_negative_start_suffix [5, 6] 1 (by decide)

/-- C7: the `stream` branch of `fromDataSource`, applied to a value with the
method surface of `DecoratedReadableStream`, passes the
`isDecoratedReadableStream` guard and then throws a `TypeError`, because the
class defines no `toBuffer` method: no buffer-backed chunker is produced for
any streamed content. -/
theorem c7_stream_source_throws :
    isDecoratedReadableStream decoratedReadableStreamMethods = true ∧
    fromDataSourceStream decoratedReadableStreamMethods [104, 105] =
      StreamSourceResult.thrown "TypeError: location.toBuffer is not a function" :=
  ⟨rfl, rfl⟩

/-- C8: once the abort signal has fired, (1) an iteration observing the abort
at its loop top sends no part upload and ends the loop, so no new part upload
begins and no further data part is taken from the feeder; (2) an iteration
observing the abort after its `UploadPartCommand` resolved does not push the
result, so in-flight part uploads may complete without being committed; and
(3) `done()` produces the error named `AbortError`. -/
theorem c8_abort_behaviour (s : AbortSignalModel) (hasUploadId : Bool)
    (t1 t2 t3 t v : Nat) (rest : List (Nat × Nat × Nat)) :
    (abortedAt s t1 = true →
      uploadAbortLoop s hasUploadId ((t1, t2, t3) :: rest) = [⟨false, false, true⟩]) ∧
    (abortedAt s t3 = true →
      (iterationOutcome s hasUploadId t1 t2 t3).committed = false) ∧
    (abortedAt s t = true → doneResult s t v = DoneResult.err "AbortError") := by
  refine ⟨?_, ?_, ?_⟩
  · intro h1
    simp [uploadAbortLoop, iterationOutcome, h1]
  · intro h3
    simp only [iterationOutcome]
    by_cases h1 : abortedAt s t1 = true
    · simp [h1]
    · by_cases h2 : (!hasUploadId && abortedAt s t2) = true
      · simp [h1, h2]
      · simp [h1, h2, h3]
  · intro h
    simp [doneResult, h]

/-- C9: with no `kasEndpoint` and a non-empty deprecated `keyRewrapEndpoint`,
the constructed kasEndpoint is the keyRewrapEndpoint with one trailing
`/rewrap` removed (witnessed by re-appending it), and is the string unchanged
when no such suffix is present; with both fields absent the constructor
throws `KAS definition not found` with no constructor effect started. -/
theorem c9_kas_endpoint_resolution (rw : List Char)
    (hasKeypair hasKasPublicKey : Bool) (hrw : rw ≠ []) :
    clientKasEndpoint none (some rw) = CtorResult.ok (replaceRewrapSuffix rw) ∧
    ("/rewrap".toList <:+ rw → replaceRewrapSuffix rw ++ "/rewrap".toList = rw) ∧
    (¬ "/rewrap".toList <:+ rw → replaceRewrapSuffix rw = rw) ∧
    clientConstruct none none hasKeypair hasKasPublicKey =
      ([], CtorResult.thrown "KAS definition not found") := by
  refine ⟨?_, ?_, ?_, ?_⟩
  · simp [clientKasEndpoint, truthyStr, hrw]
  · intro hsuf
    obtain ⟨t, ht⟩ := hsuf
    subst ht
    simp only [replaceRewrapSuffix, if_pos (List.suffix_append t _), List.length_append]
    have h7 : "/rewrap".toList.length = 7 := by decide
    rw [← h7, Nat.add_sub_cancel, List.take_left]
  · intro hns
    rw [replaceRewrapSuffix, if_neg hns]
  · simp [clientConstruct, clientKasEndpoint, truthyStr]

/-- C9 witness: `keyRewrapEndpoint = "k/rewrap"` resolves to `"k"` with the
suffix re-appending identity, and the both-absent constructor throws. -/
theorem c9_kas_endpoint_witness :
    clientKasEndpoint none (some ['k', '/', 'r', 'e', 'w', 'r', 'a', 'p']) =
      CtorResult.ok (replaceRewrapSuffix ['k', '/', 'r', 'e', 'w', 'r', 'a', 'p']) ∧
    ("/rewrap".toList <:+ ['k', '/', 'r', 'e', 'w', 'r', 'a', 'p'] →
      replaceRewrapSuffix ['k', '/', 'r', 'e', 'w', 'r', 'a', 'p'] ++ "/rewrap".toList =
        ['k', '/', 'r', 'e', 'w', 'r', 'a', 'p']) ∧
    (¬ "/rewrap".toList <:+ ['k', '/', 'r', 'e', 'w', 'r', 'a', 'p'] →
      replaceRewrapSuffix ['k', '/', 'r', 'e', 'w', 'r', 'a', 'p'] =
        ['k', '/', 'r', 'e', 'w', 'r', 'a', 'p']) ∧
    clientConstruct none none false false =
      ([], CtorResult.thrown "KAS definition not found") :=
  c9_kas_endpoint_resolution ['k', '/', 'r', 'e', 'w', 'r', 'a', 'p'] false false (by decide)

/-- C3: whenever `Client.encrypt` reaches the write, the byte limit handed to
the writer is `100 * 10^6` when `asHtml` is true and `64 * 10^9` otherwise,
and the write fails exactly when the plaintext size exceeds that limit (the
failure condition of the writer is modelled from the spec by
`writeStreamModel`). -/
theorem c3_byte_limit (c : ClientModel) (p : EncryptCall) (bl : Nat)
    (h : EncEvent.writeStream bl ∈ (encryptModel c p).1) :
    bl = (if p.asHtml then 100 * 10 ^ 6 else 64 * 10 ^ 9) ∧
    ((encryptModel c p).2 = EncResult.err "Byte limit exceeded" ↔ p.sourceSize > bl) := by
  unfold encryptModel at h ⊢
  split at h
  next => simp at h
  next hc1 =>
    split at h
    next => simp at h
    next hc2 =>
      split at h
      next => simp at h
      next hc3 =>
        rw [if_neg hc1, if_neg hc2, if_neg hc3]
        simp only [List.mem_cons, List.not_mem_nil, or_false] at h
        have hbl : bl = if p.asHtml then HTML_BYTE_LIMIT else GLOBAL_BYTE_LIMIT := by
          rcases h with h | h | h | h | h
          · exact EncEvent.noConfusion h
          · exact EncEvent.noConfusion h
          · exact EncEvent.noConfusion h
          · exact EncEvent.noConfusion h
          · injection h
        subst hbl
        constructor
        · split <;> norm_num [HTML_BYTE_LIMIT, GLOBAL_BYTE_LIMIT]
        · simp only [writeStreamModel]
          split
          next hgt => simp [hgt]
          next hle => simp [hle]

/-- C3 witness: a default (non-HTML) encrypt call hands the writer the limit
`64 * 10^9` and a 0-byte source does not exceed it. -/
theorem c3_byte_limit_witness :
    64 * 10 ^ 9 =
      (if (⟨false, false, false, 0⟩ : EncryptCall).asHtml then 100 * 10 ^ 6
        else 64 * 10 ^ 9) ∧
    ((encryptModel ⟨['k'], "pk", none⟩ ⟨false, false, false, 0⟩).2 =
        EncResult.err "Byte limit exceeded" ↔
      (⟨false, false, false, 0⟩ : EncryptCall).sourceSize > 64 * 10 ^ 9) :=
  c3_byte_limit ⟨['k'], "pk", none⟩ ⟨false, false, false, 0⟩ (64 * 10 ^ 9) (by decide)

/-- C4: every `Client.encrypt` call that passes the pre-checks (its event list
is non-empty) adds exactly one key-access entry, whose type is `wrapped` when
`offline` is true and `remote` otherwise, whose url is the kasEndpoint of the
client and whose publicKey is the cached KAS public key of the client (the
appending of the entry by `tdf.addKeyAccess` is modelled from the spec as
one event). -/
theorem c4_single_key_access (c : ClientModel) (p : EncryptCall)
    (h : (encryptModel c p).1 ≠ []) :
    keyAccessAdds (encryptModel c p).1 =
      [{ type := if p.offline then "wrapped" else "remote"
         url := String.mk c.kasEndpoint
         publicKey := c.kasPublicKey }] := by
  unfold encryptModel at h ⊢
  split at h
  next => simp at h
  next hc1 =>
    split at h
    next => simp at h
    next hc2 =>
      split at h
      next => simp at h
      next hc3 =>
        rw [if_neg hc1, if_neg hc2, if_neg hc3]
        rfl

/-- C4 witness: a default (online) encrypt call adds exactly the one `remote`
key-access entry with the kasEndpoint and cached public key. -/
theorem c4_single_key_access_witness :
    keyAccessAdds (encryptModel ⟨['k'], "pk", none⟩ ⟨false, false, false, 0⟩).1 =
      [{ type := if (⟨false, false, false, 0⟩ : EncryptCall).offline then "wrapped"
           else "remote"
         url := String.mk ['k']
         publicKey := "pk" }] :=
  c4_single_key_access ⟨['k'], "pk", none⟩ ⟨false, false, false, 0⟩ (by decide)

/-- C10: an encrypt call with `asHtml = true` on a client without a
`readerUrl`, or together with an `rcaSource`, fails with an error, and
neither the session keys are awaited nor a policy is built: the pre-check
throws before those steps. -/
theorem c10_html_prechecks (c : ClientModel) (p : EncryptCall)
    (hHtml : p.asHtml = true) (h : c.readerUrl = none ∨ p.rcaSource = true) :
    (∃ msg, (encryptModel c p).2 = EncResult.err msg) ∧
    EncEvent.awaitSessionKeys ∉ (encryptModel c p).1 ∧
    EncEvent.createPolicy ∉ (encryptModel c p).1 := by
  unfold encryptModel
  by_cases hrca : p.rcaSource = true
  · rw [if_pos (by simp [hHtml, hrca])]
    exact ⟨⟨_, rfl⟩, by simp, by simp⟩
  · have hr : c.readerUrl = none := by
      rcases h with h | h
      · exact h
      · exact absurd h hrca
    rw [if_neg (by simp [hrca]), if_pos (by simp [hHtml, hr])]
    exact ⟨⟨_, rfl⟩, by simp, by simp⟩

/-- C10 witness: an `asHtml` encrypt on a client with no readerUrl fails with
an error before awaiting session keys or building a policy. -/
theorem c10_html_prechecks_witness :
    (∃ msg, (encryptModel ⟨['k'], "pk", none⟩ ⟨true, false, false, 0⟩).2 =
      EncResult.err msg) ∧
    EncEvent.awaitSessionKeys ∉ (encryptModel ⟨['k'], "pk", none⟩ ⟨true, false, false, 0⟩).1 ∧
    EncEvent.createPolicy ∉ (encryptModel ⟨['k'], "pk", none⟩ ⟨true, false, false, 0⟩).1 :=
  c10_html_prechecks ⟨['k'], "pk", none⟩ ⟨true, false, false, 0⟩ rfl (Or.inl rfl)
